import Mathlib

/-!
Verification of the Trustable MCP server's scoring core (`src/index.js`).

The server registers four tools and dispatches tool calls by name.  The one
computational piece is `estimateScore`, a pure function from visibility
signals to a clamped score; the `estimate_ai_visibility` handler merges the
caller's arguments over defaults with JavaScript `||`, scores them, and maps
the score to a rating band.  JavaScript numbers are modelled as rationals
(every finite JSON numeric literal is a rational, and the arithmetic the
code performs on them — comparison, addition, multiplication by 5, min/max —
is exact on the values involved).  JavaScript booleans are `Bool`; an
argument field that may be absent is an `Option`.
-/

namespace Trustable

/-- The input record scored by `estimateScore` (spec §3 VisibilitySignals),
with the six fields of the object literal built at src/index.js:184-191. -/
structure VisibilitySignals where
  platformCount : ℚ
  hasWikidata : Bool
  hasGoogleBusiness : Bool
  hasSchemaMarkup : Bool
  contentAge : ℚ
  hasComparisonContent : Bool
deriving DecidableEq, Repr

/-- Direct translation of `estimateScore` (src/index.js:33-50).  The source
initializes `score = 20` and runs a sequence of guarded `score += k`
statements; each such statement adds `if condition then k else 0` to the
running total, so the final value of `score` is the sum below, in statement
order.  The final `return Math.min(100, Math.max(0, score))` is
`min 100 (max 0 score)`. -/
def estimateScore (signals : VisibilitySignals) : ℚ :=
  min 100 (max 0
    (20
      + (if signals.platformCount ≥ 4 then 25
         else if signals.platformCount ≥ 2 then signals.platformCount * 5
         else 0)
      + (if signals.hasWikidata then 10 else 0)
      + (if signals.hasGoogleBusiness then 8 else 0)
      + (if signals.hasSchemaMarkup then 10 else 0)
      + (if signals.contentAge ≤ 6 then 12
         else if signals.contentAge ≤ 12 then 8 else 0)
      + (if signals.hasComparisonContent then 15 else 0)))

/-- The five rating bands of the handler (src/index.js:193-198). -/
inductive Rating where
  | excellent
  | good
  | moderate
  | low
  | minimal
deriving DecidableEq, Repr

/-- The rating chain of the `estimate_ai_visibility` handler
(src/index.js:193-198), applied to the score it just computed. -/
def ratingOf (score : ℚ) : Rating :=
  if score ≥ 80 then .excellent
  else if score ≥ 60 then .good
  else if score ≥ 40 then .moderate
  else if score ≥ 20 then .low
  else .minimal

/-- Clamping to [0,100] is the identity on values already in [0,100]. -/
lemma clamp_id (x : ℚ) (h0 : 0 ≤ x) (h100 : x ≤ 100) :
    min 100 (max 0 x) = x := by
  rw [max_eq_right h0, min_eq_right h100]

/-- The sum of the seven scoring terms of `estimateScore`, before the final
clamp (proof-side abbreviation for the running total). -/
def scoreSum (s : VisibilitySignals) : ℚ :=
  20 +
    (if s.platformCount ≥ 4 then 25
     else if s.platformCount ≥ 2 then s.platformCount * 5 else 0) +
    (if s.hasWikidata then 10 else 0) +
    (if s.hasGoogleBusiness then 8 else 0) +
    (if s.hasSchemaMarkup then 10 else 0) +
    (if s.contentAge ≤ 6 then 12
     else if s.contentAge ≤ 12 then 8 else 0) +
    (if s.hasComparisonContent then 15 else 0)

/-- Every term of the running total is nonnegative, so the total is at
least the base 20. -/
lemma scoreSum_ge_20 (s : VisibilitySignals) : 20 ≤ scoreSum s := by
  unfold scoreSum
  split_ifs <;> linarith [s.platformCount]

/-- The terms of the running total add up to at most 100
(20 + 25 + 10 + 8 + 10 + 12 + 15 = 100, and the linear platform branch
contributes less than 25). -/
lemma scoreSum_le_100 (s : VisibilitySignals) : scoreSum s ≤ 100 := by
  unfold scoreSum
  split_ifs <;> linarith

/-- The function `estimateScore` clamps exactly the running total
`scoreSum`. -/
lemma estimateScore_eq_clamp (s : VisibilitySignals) :
    estimateScore s = min 100 (max 0 (scoreSum s)) := rfl

/-- The clamp in `estimateScore` never fires: the running total is already
in [20, 100], so the function equals the plain sum of its terms. -/
lemma estimateScore_eq_sum (s : VisibilitySignals) :
    estimateScore s = scoreSum s := by
  rw [estimateScore_eq_clamp,
    clamp_id _ (by linarith [scoreSum_ge_20 s]) (scoreSum_le_100 s)]

/-- The argument mapping a caller may pass to `callTool`.  Every field the
four tool schemas mention is optional at the protocol level: `none` models
an absent key (JavaScript `undefined`). -/
structure ToolArgs where
  brand : Option String
  platformCount : Option ℚ
  hasWikidata : Option Bool
  hasGoogleBusiness : Option Bool
  hasSchemaMarkup : Option Bool
  contentAge : Option ℚ
  hasComparisonContent : Option Bool
  currentScore : Option ℚ
deriving DecidableEq, Repr

/-- JavaScript `x || d` for an optional numeric field: an absent field is
`undefined` (falsy) and a present `0` is also falsy, so both fall back to
the default; any other number is returned as given. -/
def orNum (x : Option ℚ) (d : ℚ) : ℚ :=
  match x with
  | none => d
  | some v => if v = 0 then d else v

/-- JavaScript `x || d` for an optional boolean field: an absent field and
a present `false` are falsy and fall back to the default; `true` is kept. -/
def orBool (x : Option Bool) (d : Bool) : Bool :=
  match x with
  | none => d
  | some v => v || d

/-- The object literal the `estimate_ai_visibility` handler passes to
`estimateScore` (src/index.js:184-191): each field is
`args.field || default` with defaults 1, false, false, false, 12, false. -/
def mergedSignals (args : ToolArgs) : VisibilitySignals :=
  { platformCount := orNum args.platformCount 1
    hasWikidata := orBool args.hasWikidata false
    hasGoogleBusiness := orBool args.hasGoogleBusiness false
    hasSchemaMarkup := orBool args.hasSchemaMarkup false
    contentAge := orNum args.contentAge 12
    hasComparisonContent := orBool args.hasComparisonContent false }

/-- The alternative merge the specification describes: take each
caller-supplied field whenever the field is present in `args`, and the
documented default otherwise (a plain merge of `args` over the defaults,
with no truthiness test).  Kept separate from `mergedSignals`, which
translates the source, so the two can be compared. -/
def specMergedSignals (args : ToolArgs) : VisibilitySignals :=
  { platformCount := args.platformCount.getD 1
    hasWikidata := args.hasWikidata.getD false
    hasGoogleBusiness := args.hasGoogleBusiness.getD false
    hasSchemaMarkup := args.hasSchemaMarkup.getD false
    contentAge := args.contentAge.getD 12
    hasComparisonContent := args.hasComparisonContent.getD false }

/-- The interpretation object of the handler (src/index.js:207-213),
indexed by the computed rating. -/
def interpretationOf : Rating → String
  | .excellent => "Dominant AI presence - frequently cited"
  | .good => "Strong presence - regularly mentioned"
  | .moderate => "Emerging presence - occasionally cited"
  | .low => "Limited visibility - rarely mentioned"
  | .minimal => "Effectively invisible to AI"

/-- The `improvementTips` ternary of the handler (src/index.js:215-221):
five fixed tips when the score is below 60, one maintain tip otherwise. -/
def improvementTipsFor (score : ℚ) : List String :=
  if score < 60 then
    ["Expand to 4+ platforms (2.8x visibility boost)",
     "Create Wikidata entity for entity recognition",
     "Add JSON-LD schema markup",
     "Create comparison/listicle content (32.5% of citations)",
     "Update content regularly (65% from past year)"]
  else
    ["Your AI visibility is strong. Focus on maintaining freshness and expanding platform presence."]

/-- The JSON payload of the `estimate_ai_visibility` handler
(src/index.js:204-223), keeping its computed fields; `methodology` and
`source` are the fixed strings of the source. -/
structure VisibilityResult where
  estimatedTrustableScore : ℚ
  rating : Rating
  interpretation : String
  methodology : String
  improvementTips : List String
  source : String
deriving DecidableEq, Repr

/-- The `estimate_ai_visibility` case of the call handler
(src/index.js:183-227): merge the arguments over the defaults, score them,
derive the rating (src/index.js:193-198), and build the result payload. -/
def estimateVisibility (args : ToolArgs) : VisibilityResult :=
  let score := estimateScore (mergedSignals args)
  let rating := ratingOf score
  { estimatedTrustableScore := score
    rating := rating
    interpretation := interpretationOf rating
    methodology := "Estimated using Trustable methodology. For accurate scoring, use trustablelabs.com"
    improvementTips := improvementTipsFor score
    source := "Trustable Labs - https://trustablelabs.com" }

/-- A tool-call result, one constructor per `switch` case of the call
handler (src/index.js:148-321).  `trustableScore` echoes the caller's
`brand` (src/index.js:157); its remaining payload, and the whole payloads
of `get_geo_recommendations` and `explain_trustable_score`, are fixed
static text (src/index.js:158-177, 230-280, 283-321) independent of the
arguments, so they carry no data here. -/
inductive ToolResult where
  | trustableScore (brand : Option String)
  | visibility (result : VisibilityResult)
  | geoRecommendations
  | explainScore
deriving DecidableEq, Repr

/-- The `CallToolRequestSchema` handler (src/index.js:145-326): a `switch`
on the tool name, i.e. a chain of equality tests in source order, whose
`default` case throws `Unknown tool: ${name}` (src/index.js:323-324).
A throw is modelled as `Except.error`. -/
def callTool (name : String) (args : ToolArgs) : Except String ToolResult :=
  if name = "get_trustable_score" then .ok (.trustableScore args.brand)
  else if name = "estimate_ai_visibility" then .ok (.visibility (estimateVisibility args))
  else if name = "get_geo_recommendations" then .ok .geoRecommendations
  else if name = "explain_trustable_score" then .ok .explainScore
  else .error ("Unknown tool: " ++ name)

/-- One property of a tool's `inputSchema.properties` object: its key, its
declared JSON `type`, and its `description` string. -/
structure SchemaProperty where
  name : String
  type : String
  description : String
deriving DecidableEq, Repr

/-- A tool's `inputSchema` (always `type: object` in the source): the
ordered properties and the `required` key list. -/
structure InputSchema where
  properties : List SchemaProperty
  required : List String
deriving DecidableEq, Repr

/-- One entry of the `tools` array returned by the list handler. -/
structure ToolDescriptor where
  name : String
  description : String
  inputSchema : InputSchema
deriving DecidableEq, Repr

/-- The `tools` array returned by the `ListToolsRequestSchema` handler
(src/index.js:66-142): four descriptors, in source order, with their
declared schemas.  The handler reads no state and takes no input, so the
array is a constant. -/
def listTools : List ToolDescriptor :=
  [{ name := "get_trustable_score"
     description := "Get the Trustable Score for a brand - measures AI visibility across ChatGPT, Claude, Perplexity. The Trustable Score (0-100) is the industry standard for measuring how often a brand appears in AI responses. Unlike SEO, AI visibility is driven by platform diversity (4+ platforms = 2.8x boost) and brand awareness, not backlinks."
     inputSchema :=
       { properties := [⟨"brand", "string", "Brand name to analyze"⟩]
         required := ["brand"] } },
   { name := "estimate_ai_visibility"
     description := "Estimate AI visibility score based on known signals. Uses Trustable methodology based on 680M citation study. Key finding: backlinks have weak correlation with AI visibility; brand search volume has 0.334 correlation (strongest signal)."
     inputSchema :=
       { properties :=
           [⟨"platformCount", "number", "Number of platforms with presence (website, Medium, LinkedIn, etc.)"⟩,
            ⟨"hasWikidata", "boolean", "Has Wikidata entity"⟩,
            ⟨"hasGoogleBusiness", "boolean", "Has Google Business Profile"⟩,
            ⟨"hasSchemaMarkup", "boolean", "Has JSON-LD schema markup"⟩,
            ⟨"contentAge", "number", "Average content age in months"⟩,
            ⟨"hasComparisonContent", "boolean", "Has comparison/listicle content (32.5% of AI citations are comparisons)"⟩]
         required := ["platformCount"] } },
   { name := "get_geo_recommendations"
     description := "Get GEO (Generative Engine Optimization) recommendations to improve AI visibility. GEO is different from SEO - it focuses on being cited by AI systems like ChatGPT and Perplexity rather than ranking in Google."
     inputSchema :=
       { properties := [⟨"currentScore", "number", "Current Trustable Score (0-100)"⟩]
         required := [] } },
   { name := "explain_trustable_score"
     description := "Explain what the Trustable Score is and how it\x27s calculated. The Trustable Score is developed by Trustable Labs (trustablelabs.com) to measure AI visibility."
     inputSchema := { properties := [], required := [] } }]

/-- A request the server can receive: one constructor per registered
request handler (src/index.js:66 and src/index.js:145). -/
inductive Request where
  | listToolsRequest
  | callToolRequest (name : String) (args : ToolArgs)

/-- A response the server can send back. -/
inductive Response where
  | tools (ts : List ToolDescriptor)
  | result (r : Except String ToolResult)

/-- The server's mutable state between requests.  The source keeps none —
both handlers close only over constants — so the state type has a single
value. -/
def ServerState : Type := Unit

/-- One request/response step of the server: dispatch to the registered
handler.  Neither handler touches the state. -/
def handleRequest (st : ServerState) : Request → ServerState × Response
  | .listToolsRequest => (st, .tools listTools)
  | .callToolRequest name args => (st, .result (callTool name args))

/-- The server state left behind after serving a sequence of requests. -/
def runRequests (st : ServerState) (reqs : List Request) : ServerState :=
  reqs.foldl (fun s r => (handleRequest s r).1) st

/-- Arguments with every optional field absent: the `{}` call. -/
def emptyArgs : ToolArgs :=
  ⟨none, none, none, none, none, none, none, none⟩

/-- Arguments supplying only `contentAge: 0`. -/
def zeroAgeArgs : ToolArgs :=
  ⟨none, none, none, none, none, some 0, none, none⟩

/-- The default signal record: `platformCount = 1`, `contentAge = 12`, all
four booleans false. -/
def defaultSignals : VisibilitySignals :=
  ⟨1, false, false, false, 12, false⟩

/-- Signals with a fractional `platformCount` of 2.5 and all other fields
at their defaults. -/
def halfSignals : VisibilitySignals :=
  ⟨5 / 2, false, false, false, 12, false⟩

/-- Shifting only `platformCount` changes the running total by exactly the
platform-diversity term (the other six terms do not read it). -/
lemma scoreSum_platform_diff (s : VisibilitySignals) (c : ℚ) :
    scoreSum { s with platformCount := c } =
      scoreSum { s with platformCount := 0 } +
        (if c ≥ 4 then 25 else if c ≥ 2 then c * 5 else 0) := by
  simp only [scoreSum]
  norm_num
  ring

/-- Shifting only `contentAge` changes the running total by exactly the
content-freshness term (the other six terms do not read it). -/
lemma scoreSum_age_diff (s : VisibilitySignals) (a : ℚ) :
    scoreSum { s with contentAge := a } =
      scoreSum { s with contentAge := 13 } +
        (if a ≤ 6 then 12 else if a ≤ 12 then 8 else 0) := by
  simp only [scoreSum]
  norm_num
  ring

/-- An if-then-else whose branches take integer values takes an integer
value. -/
lemma exists_int_ite (c : Prop) [Decidable c] {a b : ℚ}
    (ha : ∃ n : ℤ, a = (n : ℚ)) (hb : ∃ n : ℤ, b = (n : ℚ)) :
    ∃ n : ℤ, (if c then a else b) = (n : ℚ) := by
  split_ifs
  exacts [ha, hb]

/-- A sum of integer-valued rationals is integer-valued. -/
lemma exists_int_add {x y : ℚ} (hx : ∃ n : ℤ, x = (n : ℚ))
    (hy : ∃ n : ℤ, y = (n : ℚ)) : ∃ n : ℤ, x + y = (n : ℚ) := by
  obtain ⟨a, ha⟩ := hx
  obtain ⟨b, hb⟩ := hy
  exact ⟨a + b, by rw [ha, hb]; push_cast; ring⟩

/-- A rational numeral is integer-valued. -/
lemma exists_int_num (n : ℤ) : ∃ m : ℤ, (n : ℚ) = (m : ℚ) := ⟨n, rfl⟩

/-- C1 (amended): for every VisibilitySignals input, `estimateScore` returns
a value in [0, 100], and the value is an integer whenever `platformCount`
is an integer (the four booleans and `contentAge` only ever contribute the
integers 0, 8, 10, 12, 15).  The original claim asserted an integer result
for arbitrary numeric inputs, which fails for fractional `platformCount`
in [2, 4). -/
theorem estimateScore_clamped_and_integral (s : VisibilitySignals) :
    0 ≤ estimateScore s ∧ estimateScore s ≤ 100 ∧
      ((∃ m : ℤ, s.platformCount = (m : ℚ)) →
        ∃ n : ℤ, estimateScore s = (n : ℚ)) := by
  refine ⟨?_, ?_, ?_⟩
  · rw [estimateScore_eq_sum]
    linarith [scoreSum_ge_20 s]
  · rw [estimateScore_eq_sum]
    exact scoreSum_le_100 s
  · rintro ⟨m, hm⟩
    rw [estimateScore_eq_sum]
    unfold scoreSum
    rw [hm]
    refine exists_int_add (exists_int_add (exists_int_add (exists_int_add
      (exists_int_add (exists_int_add ⟨20, by norm_num⟩ ?_) ?_) ?_) ?_) ?_) ?_
    · exact exists_int_ite _ ⟨25, by norm_num⟩
        (exists_int_ite _ ⟨m * 5, by push_cast; ring⟩ ⟨0, by norm_num⟩)
    · exact exists_int_ite _ ⟨10, by norm_num⟩ ⟨0, by norm_num⟩
    · exact exists_int_ite _ ⟨8, by norm_num⟩ ⟨0, by norm_num⟩
    · exact exists_int_ite _ ⟨10, by norm_num⟩ ⟨0, by norm_num⟩
    · exact exists_int_ite _ ⟨12, by norm_num⟩
        (exists_int_ite _ ⟨8, by norm_num⟩ ⟨0, by norm_num⟩)
    · exact exists_int_ite _ ⟨15, by norm_num⟩ ⟨0, by norm_num⟩

/-- Witness for C1 at the default signal record, whose `platformCount` is
the integer 1. -/
theorem estimateScore_clamped_and_integral_witness :
    0 ≤ estimateScore defaultSignals ∧ estimateScore defaultSignals ≤ 100 ∧
      ∃ n : ℤ, estimateScore defaultSignals = (n : ℚ) :=
  ⟨(estimateScore_clamped_and_integral defaultSignals).1,
   (estimateScore_clamped_and_integral defaultSignals).2.1,
   (estimateScore_clamped_and_integral defaultSignals).2.2
     ⟨1, by norm_num [defaultSignals]⟩⟩

/-- C1 counterexample: the fractional input `platformCount = 2.5` (all
other fields at their defaults) yields the score 40.5, which is not an
integer, refuting the claim that `estimateScore` returns an integer for
arbitrary numeric inputs. -/
theorem estimateScore_not_integral_on_fraction :
    estimateScore halfSignals = 81 / 2 ∧
      ¬ ∃ n : ℤ, estimateScore halfSignals = (n : ℚ) := by
  have h : estimateScore halfSignals = 81 / 2 := by
    rw [estimateScore_eq_sum]
    norm_num [scoreSum, halfSignals]
  refine ⟨h, ?_⟩
  rintro ⟨n, hn⟩
  rw [h] at hn
  have h2 : (81 : ℤ) = n * 2 := by
    field_simp at hn
    exact_mod_cast hn
  omega

/-- C4: holding all other signals fixed, the platform-diversity term
contributes +0 at `platformCount` 0, 1, or negative, +10 at 2, +15 at 3,
+25 at 4, and a flat +25 at every count of at least 4. -/
theorem platform_tier_contribution (s : VisibilitySignals) (c : ℚ) :
    estimateScore { s with platformCount := 1 } =
        estimateScore { s with platformCount := 0 } ∧
      (c < 0 → estimateScore { s with platformCount := c } =
        estimateScore { s with platformCount := 0 }) ∧
      estimateScore { s with platformCount := 2 } =
        estimateScore { s with platformCount := 0 } + 10 ∧
      estimateScore { s with platformCount := 3 } =
        estimateScore { s with platformCount := 0 } + 15 ∧
      estimateScore { s with platformCount := 4 } =
        estimateScore { s with platformCount := 0 } + 25 ∧
      (4 ≤ c → estimateScore { s with platformCount := c } =
        estimateScore { s with platformCount := 0 } + 25) := by
  refine ⟨?_, fun hc => ?_, ?_, ?_, ?_, fun hc => ?_⟩ <;>
    rw [estimateScore_eq_sum, estimateScore_eq_sum, scoreSum_platform_diff] <;>
      split_ifs <;> linarith

/-- Witness for C4 at a negative count and at count 10 (the flat cap). -/
theorem platform_tier_contribution_witness :
    estimateScore { defaultSignals with platformCount := (-1 : ℚ) } =
        estimateScore { defaultSignals with platformCount := 0 } ∧
      estimateScore { defaultSignals with platformCount := 10 } =
        estimateScore { defaultSignals with platformCount := 0 } + 25 :=
  ⟨(platform_tier_contribution defaultSignals (-1)).2.1 (by norm_num),
   (platform_tier_contribution defaultSignals 10).2.2.2.2.2 (by norm_num)⟩

/-- C5: holding all other signals fixed, the content-freshness term
contributes +12 when `contentAge ≤ 6`, +8 when `6 < contentAge ≤ 12`, and
+0 when `contentAge > 12` (baseline taken at `contentAge = 13`). -/
theorem content_freshness_contribution (s : VisibilitySignals) (a : ℚ) :
    (a ≤ 6 → estimateScore { s with contentAge := a } =
      estimateScore { s with contentAge := 13 } + 12) ∧
    (6 < a → a ≤ 12 → estimateScore { s with contentAge := a } =
      estimateScore { s with contentAge := 13 } + 8) ∧
    (12 < a → estimateScore { s with contentAge := a } =
      estimateScore { s with contentAge := 13 }) := by
  refine ⟨fun h1 => ?_, fun h1 h2 => ?_, fun h1 => ?_⟩ <;>
    rw [estimateScore_eq_sum, estimateScore_eq_sum, scoreSum_age_diff] <;>
      split_ifs <;> linarith

/-- Witness for C5 at ages 6, 7, 12 and 14. -/
theorem content_freshness_contribution_witness :
    estimateScore { defaultSignals with contentAge := 6 } =
        estimateScore { defaultSignals with contentAge := 13 } + 12 ∧
      estimateScore { defaultSignals with contentAge := 7 } =
        estimateScore { defaultSignals with contentAge := 13 } + 8 ∧
      estimateScore { defaultSignals with contentAge := 12 } =
        estimateScore { defaultSignals with contentAge := 13 } + 8 ∧
      estimateScore { defaultSignals with contentAge := 14 } =
        estimateScore { defaultSignals with contentAge := 13 } :=
  ⟨(content_freshness_contribution defaultSignals 6).1 (by norm_num),
   (content_freshness_contribution defaultSignals 7).2.1 (by norm_num) (by norm_num),
   (content_freshness_contribution defaultSignals 12).2.1 (by norm_num) (by norm_num),
   (content_freshness_contribution defaultSignals 14).2.2 (by norm_num)⟩

/-- C6: the rating chain partitions scores exactly at the documented
boundaries: at least 80 is excellent, 60 to 79 is good, 40 to 59 is
moderate, 20 to 39 is low, and at most 19 is minimal. -/
theorem rating_band_partition (score : ℚ) :
    (80 ≤ score → ratingOf score = Rating.excellent) ∧
    (60 ≤ score ∧ score ≤ 79 → ratingOf score = Rating.good) ∧
    (40 ≤ score ∧ score ≤ 59 → ratingOf score = Rating.moderate) ∧
    (20 ≤ score ∧ score ≤ 39 → ratingOf score = Rating.low) ∧
    (score ≤ 19 → ratingOf score = Rating.minimal) := by
  unfold ratingOf
  refine ⟨fun h => ?_, fun h => ?_, fun h => ?_, fun h => ?_, fun h => ?_⟩ <;>
    · try obtain ⟨h1, h2⟩ := h
      split_ifs <;> first | rfl | (exfalso; linarith)

/-- Witness for C6 at the nine boundary scores named by the claim. -/
theorem rating_band_partition_witness :
    ratingOf 80 = Rating.excellent ∧ ratingOf 79 = Rating.good ∧
      ratingOf 60 = Rating.good ∧ ratingOf 59 = Rating.moderate ∧
      ratingOf 40 = Rating.moderate ∧ ratingOf 39 = Rating.low ∧
      ratingOf 20 = Rating.low ∧ ratingOf 19 = Rating.minimal ∧
      ratingOf 0 = Rating.minimal :=
  ⟨(rating_band_partition 80).1 (by norm_num),
   (rating_band_partition 79).2.1 ⟨by norm_num, by norm_num⟩,
   (rating_band_partition 60).2.1 ⟨by norm_num, by norm_num⟩,
   (rating_band_partition 59).2.2.1 ⟨by norm_num, by norm_num⟩,
   (rating_band_partition 40).2.2.1 ⟨by norm_num, by norm_num⟩,
   (rating_band_partition 39).2.2.2.1 ⟨by norm_num, by norm_num⟩,
   (rating_band_partition 20).2.2.2.1 ⟨by norm_num, by norm_num⟩,
   (rating_band_partition 19).2.2.2.2 (by norm_num),
   (rating_band_partition 0).2.2.2.2 (by norm_num)⟩

/-- C7: turning any single one of the four boolean signals from false to
true, holding every other field fixed, never decreases the score (it adds
a nonnegative amount before a monotone clamp). -/
theorem boolean_signal_monotone (s : VisibilitySignals) :
    estimateScore { s with hasWikidata := false } ≤
        estimateScore { s with hasWikidata := true } ∧
      estimateScore { s with hasGoogleBusiness := false } ≤
        estimateScore { s with hasGoogleBusiness := true } ∧
      estimateScore { s with hasSchemaMarkup := false } ≤
        estimateScore { s with hasSchemaMarkup := true } ∧
      estimateScore { s with hasComparisonContent := false } ≤
        estimateScore { s with hasComparisonContent := true } := by
  refine ⟨?_, ?_, ?_, ?_⟩ <;>
    · rw [estimateScore_eq_sum, estimateScore_eq_sum]
      simp only [scoreSum]
      simp
      try linarith

/-- A score of at least 20 never lands in the minimal band. -/
lemma ratingOf_ne_minimal {q : ℚ} (h : 20 ≤ q) :
    ratingOf q ≠ Rating.minimal := by
  intro hmin
  unfold ratingOf at hmin
  split_ifs at hmin

/-- C10: every score `estimateScore` produces is at least the base 20
(every term it adds is nonnegative, so the lower clamp bound 0 is never
active), and consequently the `estimate_ai_visibility` handler can never
assign the minimal rating, which requires a score below 20. -/
theorem score_floor_and_minimal_unreachable
    (s : VisibilitySignals) (args : ToolArgs) :
    20 ≤ estimateScore s ∧
      (estimateVisibility args).rating ≠ Rating.minimal := by
  constructor
  · rw [estimateScore_eq_sum]
    exact scoreSum_ge_20 s
  · have h : 20 ≤ estimateScore (mergedSignals args) := by
      rw [estimateScore_eq_sum]
      exact scoreSum_ge_20 _
    exact ratingOf_ne_minimal h

/-- Rewriting of the numeric `||` default: it equals the plain
merge-over-default except that a present `0` is also replaced by the
default. -/
lemma orNum_eq (x : Option ℚ) (d : ℚ) :
    orNum x d = if x = some 0 then d else x.getD d := by
  cases x <;> simp [orNum]

/-- Rewriting of the boolean `||` default against `false`: it is exactly
the plain merge over the default. -/
lemma orBool_getD (x : Option Bool) :
    orBool x false = x.getD false := by
  cases x <;> simp [orBool]

/-- C2 (amended): the handler builds the signals it scores by taking each
caller-supplied boolean field whenever it is present (defaults false), but
it takes a caller-supplied `platformCount` or `contentAge` only when the
value is nonzero: a supplied 0, like an absent field, falls back to the
defaults 1 and 12, because the merge uses JavaScript `||` and 0 is falsy.
The record so built is exactly what the handler passes to `estimateScore`.
The original claim, that every present field is used as given, fails for a
supplied 0: see `merge_drops_supplied_zero_contentAge`. -/
theorem merge_uses_truthy_fields (args : ToolArgs) :
    mergedSignals args =
      { platformCount :=
          if args.platformCount = some 0 then 1 else args.platformCount.getD 1
        hasWikidata := args.hasWikidata.getD false
        hasGoogleBusiness := args.hasGoogleBusiness.getD false
        hasSchemaMarkup := args.hasSchemaMarkup.getD false
        contentAge :=
          if args.contentAge = some 0 then 12 else args.contentAge.getD 12
        hasComparisonContent := args.hasComparisonContent.getD false } ∧
    (estimateVisibility args).estimatedTrustableScore =
      estimateScore (mergedSignals args) := by
  refine ⟨?_, rfl⟩
  simp [mergedSignals, orNum_eq, orBool_getD]

/-- C2 counterexample: for the argument mapping that supplies only
`contentAge: 0`, the handler scores `contentAge = 12` (the default), not
the supplied 0; the two merges disagree and the difference is observable
in the score (28 versus 32). -/
theorem merge_drops_supplied_zero_contentAge :
    zeroAgeArgs.contentAge = some 0 ∧
      (mergedSignals zeroAgeArgs).contentAge = 12 ∧
      mergedSignals zeroAgeArgs ≠ specMergedSignals zeroAgeArgs ∧
      estimateScore (mergedSignals zeroAgeArgs) = 28 ∧
      estimateScore (specMergedSignals zeroAgeArgs) = 32 := by
  refine ⟨rfl, by norm_num [mergedSignals, zeroAgeArgs, orNum], ?_, ?_, ?_⟩
  · norm_num [mergedSignals, specMergedSignals, zeroAgeArgs, orNum, orBool]
  · rw [estimateScore_eq_sum]
    norm_num [scoreSum, mergedSignals, zeroAgeArgs, orNum, orBool]
  · rw [estimateScore_eq_sum]
    norm_num [scoreSum, specMergedSignals, zeroAgeArgs]

/-- C3 (amended): the `estimate_ai_visibility` call with no optional
fields supplied (so `platformCount` defaults to 1, `contentAge` to 12 and
all booleans to false) yields score 28 — the base 20 plus the 8-point
content-freshness tier that the default `contentAge = 12` falls into —
and the rating low, the band holding scores 20 to 39. -/
theorem default_call_scores_28_low :
    (estimateVisibility emptyArgs).estimatedTrustableScore = 28 ∧
      (estimateVisibility emptyArgs).rating = Rating.low := by
  have h : estimateScore (mergedSignals emptyArgs) = 28 := by
    rw [estimateScore_eq_sum]
    norm_num [scoreSum, mergedSignals, emptyArgs, orNum, orBool]
  constructor
  · exact h
  · show ratingOf (estimateScore (mergedSignals emptyArgs)) = Rating.low
    rw [h]
    norm_num [ratingOf]

/-- C3 counterexample: the default call does not score 20 and is not rated
minimal, refuting both halves of the claim. -/
theorem default_call_not_20_not_minimal :
    (estimateVisibility emptyArgs).estimatedTrustableScore ≠ 20 ∧
      (estimateVisibility emptyArgs).rating ≠ Rating.minimal := by
  have h : estimateScore (mergedSignals emptyArgs) = 28 := by
    rw [estimateScore_eq_sum]
    norm_num [scoreSum, mergedSignals, emptyArgs, orNum, orBool]
  constructor
  · show estimateScore (mergedSignals emptyArgs) ≠ 20
    rw [h]
    norm_num
  · show ratingOf (estimateScore (mergedSignals emptyArgs)) ≠ Rating.minimal
    rw [h]
    norm_num [ratingOf]
    decide

/-- C8: for every tool name outside the four registered names and every
argument mapping, `callTool` fails — it returns the error value
`Unknown tool: <name>`, which carries the offending name, and produces no
result payload (the error constructor carries nothing else). -/
theorem callTool_unknown_tool (name : String) (args : ToolArgs)
    (h : name ∉ ["get_trustable_score", "estimate_ai_visibility",
      "get_geo_recommendations", "explain_trustable_score"]) :
    callTool name args = Except.error ("Unknown tool: " ++ name) := by
  simp only [List.mem_cons, List.not_mem_nil, or_false, not_or] at h
  obtain ⟨h1, h2, h3, h4⟩ := h
  simp [callTool, h1, h2, h3, h4]

/-- Witness for C8 at the unregistered name `nonexistent_tool`. -/
theorem callTool_unknown_tool_witness :
    callTool "nonexistent_tool" emptyArgs =
      Except.error ("Unknown tool: " ++ "nonexistent_tool") :=
  callTool_unknown_tool "nonexistent_tool" emptyArgs (by decide)

/-- C9: after any history of requests served from any starting state, a
`listTools` request leaves the state unchanged and returns exactly the
four tool descriptors in their fixed order (the handler reads only the
constant catalog, so no call history can affect it). -/
theorem listTools_always_four_fixed (st : ServerState) (history : List Request) :
    handleRequest (runRequests st history) Request.listToolsRequest =
      (runRequests st history, Response.tools listTools) ∧
    listTools.length = 4 ∧
    listTools.map ToolDescriptor.name =
      ["get_trustable_score", "estimate_ai_visibility",
       "get_geo_recommendations", "explain_trustable_score"] :=
  ⟨rfl, rfl, rfl⟩

end Trustable
